import Mathlib

/-!
# Verification of the SKGC pipeline (src/SKGC.py)

A shallow embedding of the core of `SKGC.py`: the Python string operations the
script relies on (`str.split`, `str.replace`, `str.strip`, `int(...)`), the
per-publication metric computation of `eval_one` (lines 523-541 / 580-598),
the section-marker parsing (lines 498-504 / 557-563), the two query gateways
`query_gpt_agent` / `query_gpt_assistant`, the three-stage extraction pipeline
`extract_topics_one`, and the corpus-level aggregation of `print_eval_details`
(lines 745-784).

Modelling conventions:
* Python strings are Lean `String`s; the Python operations are re-implemented
  over `String.data` (lists of characters) so that every definition reduces
  inside the kernel.  `str.split(sep)` for a non-empty separator, `str.strip()`
  on ASCII whitespace, `str.replace(old, new)` for a non-empty pattern and
  `int(text)` on ASCII digits (with Python's underscore grouping) are modelled
  exactly; unicode digit/whitespace exotica that cannot occur in the script's
  data are not modelled.
* Python floats are modelled as `ℚ` (the script only compares metric values
  against the exact sentinels `-1` and `0`, and divides small integers).
* A raised, uncaught Python exception is modelled by `Option.none` / by fallible
  results: `scipy.stats.hmean` raises `ValueError` on a negative entry (every
  scipy version does; versions >= 1.9 return `0` when an entry is zero, which
  is what `hmean` below returns), `list[index]` out of range raises
  `IndexError`, and both abort `eval_one` and hence the run.
* The two OpenAI endpoints are an opaque environment `Env`: a function from
  the submitted role-tagged turns to `Option String`, where `none` models a
  remote failure (the `except` branch of the script, which degrades to `""`).
-/

/-- ASCII whitespace recognised by Python's `str.strip()`. -/
def isPySpace (c : Char) : Bool :=
  c == ' ' || c == '\t' || c == '\n' || c == '\r' || c == '\x0b' || c == '\x0c'

/-- `str.strip()` on a character list: drop whitespace from both ends. -/
def stripChars (cs : List Char) : List Char :=
  ((cs.dropWhile isPySpace).reverse.dropWhile isPySpace).reverse

/-- Python `s.strip()`. -/
def pyStrip (s : String) : String := ⟨stripChars s.data⟩

/-- Worker for Python `str.split(sep)` with non-empty separator `sc :: srest`.
`fuel` bounds the recursion; `pySplitCore` supplies `cs.length`, which is
enough fuel, so the fuel-exhaustion branch is never taken (see
`splitAux_ne_nil` and the fuel invariant `fuel + 1 ≥ cs.length`). -/
def splitAux (sc : Char) (srest : List Char) : Nat → List Char → List Char → List (List Char)
  | _, [], acc => [acc.reverse]
  | 0, cs, acc => [acc.reverse ++ cs]
  | fuel + 1, c :: rest, acc =>
      if (sc :: srest).isPrefixOf (c :: rest) then
        acc.reverse :: splitAux sc srest fuel (rest.drop srest.length) []
      else
        splitAux sc srest fuel rest (c :: acc)

/-- Python `s.split(sep)` over character lists.  For an empty separator Python
raises `ValueError`; the script only splits on `","` and on the literal
section markers, so that branch (here: the identity split) is never used. -/
def pySplitCore (sep cs : List Char) : List (List Char) :=
  match sep with
  | [] => [cs]
  | sc :: srest => splitAux sc srest cs.length cs []

/-- Python `s.split(sep)` on `String`s. -/
def pySplit (s sep : String) : List String :=
  (pySplitCore sep.data s.data).map fun l => ⟨l⟩

/-- Join a list of character lists with a separator (Python `sep.join`). -/
def joinChars (sep : List Char) : List (List Char) → List Char
  | [] => []
  | [x] => x
  | x :: xs => x ++ sep ++ joinChars sep xs

/-- Python `s.replace(old, new)`: all non-overlapping occurrences of `old`,
scanned left to right, are replaced by `new`; equivalently
`new.join(s.split(old))`.  The script only replaces non-empty placeholder
tokens, so the empty-pattern branch is never used. -/
def pyReplace (s old new : String) : String :=
  match old.data with
  | [] => s
  | _ :: _ => ⟨joinChars new.data (pySplitCore old.data s.data)⟩

/-- `', '.join(map(str, in_list))` from `list_to_comma_separated_string`
(SKGC.py lines 330-341); on lists of strings `str` is the identity. -/
def list_to_comma_separated_string (in_list : List String) : String :=
  ⟨joinChars (", ".data) (in_list.map String.data)⟩

/-- Numeric value of an ASCII digit. -/
def digitVal (c : Char) : Nat := c.toNat - 48

/-- Digits of a Python integer literal after the first digit: ASCII digits
with single underscores allowed between digits (`int("1_0") = 10`). -/
def digitsLoop : Nat → List Char → Option Nat
  | acc, [] => some acc
  | acc, '_' :: rest =>
      match rest with
      | [] => none
      | d :: rest2 => if d.isDigit then digitsLoop (acc * 10 + digitVal d) rest2 else none
  | acc, d :: rest => if d.isDigit then digitsLoop (acc * 10 + digitVal d) rest else none

/-- A non-empty run of digits (with underscore grouping), or `none`. -/
def startDigits : List Char → Option Nat
  | [] => none
  | c :: rest => if c.isDigit then digitsLoop (digitVal c) rest else none

/-- Python `int(text)`: optional surrounding whitespace, optional sign, then a
non-empty digit run.  `none` models the raised `ValueError`. -/
def pyIntParse (s : String) : Option ℤ :=
  match stripChars s.data with
  | '+' :: rest => (startDigits rest).map fun n => (n : ℤ)
  | '-' :: rest => (startDigits rest).map fun n => -(n : ℤ)
  | rest => (startDigits rest).map fun n => (n : ℤ)

/-- `response_to_integer` (SKGC.py lines 420-437): `int(response)` guarded by
`try/except ValueError`; the except branch logs a warning and returns `0`. -/
def response_to_integer (response : String) : ℤ :=
  match pyIntParse response with
  | some n => n
  | none => 0

/-- `scipy.stats.hmean` on a list of rationals.  A negative entry raises
`ValueError` (`none`); an entry equal to zero yields `0`; otherwise the
harmonic mean `n / Σ 1/xᵢ`. -/
def hmean (xs : List ℚ) : Option ℚ :=
  if xs.any fun x => decide (x < 0) then none
  else if xs.any fun x => decide (x = 0) then some 0
  else some ((xs.length : ℚ) / (xs.map fun x => x⁻¹).sum)

/-- Precision of `eval_one` (SKGC.py lines 524-528): `-1` sentinel for an
empty candidate list, else `count / len(candidate)`. -/
def precisionOf (candidate : List String) (count : ℤ) : ℚ :=
  if candidate.length = 0 then -1 else (count : ℚ) / (candidate.length : ℚ)

/-- Recall of `eval_one` (SKGC.py lines 529-533): `-1` sentinel for an empty
gold list, else `count / len(gold)`. -/
def recallOf (gold : List String) (count : ℤ) : ℚ :=
  if gold.length = 0 then -1 else (count : ℚ) / (gold.length : ℚ)

/-- The three metrics attached to one (system, publication) pair. -/
structure MetricTriple where
  precision : ℚ
  recall' : ℚ
  f1 : ℚ
deriving DecidableEq

/-- The metric block of `eval_one` (SKGC.py lines 523-541 and 580-598):
precision and recall with their empty-list sentinels, then
`f1 = -1` if `precision + recall == 0`, else `hmean([precision, recall])`.
`none` models the `ValueError` that `hmean` raises when it receives the
`-1` sentinel, which aborts `eval_one`. -/
def computeMetrics (candidate gold : List String) (count : ℤ) : Option MetricTriple :=
  let precision := precisionOf candidate count
  let recall' := recallOf gold count
  if precision + recall' = 0 then some ⟨precision, recall', -1⟩
  else (hmean [precision, recall']).map fun f => ⟨precision, recall', f⟩

/-- One role-tagged conversation turn (the `messages` dictionaries of the
script). -/
structure Turn where
  role : String
  content : String
deriving DecidableEq

/-- The opaque remote capability and the loaded template files.  `agentReply`
and `assistantReply` map the submitted turn sequence to the raw response
text; `none` models a network/API failure, which the script catches, logs and
degrades to `""`.  The four `prompts*` lists are the contents of the YAML
template files loaded by `load_prompts_from_yaml` (external collaborators in
the design). -/
structure Env where
  agentReply : List Turn → Option String
  assistantReply : List Turn → Option String
  promptsAgent : List String
  promptsAssistant : List String
  promptsAgentEval : List String
  promptsAssistantEval : List String

/-- A publication record with the fields the pipelines read and write.
Derived fields start out with dummy defaults and are overwritten by the
pipelines, mirroring the Python dictionary. -/
structure Publication where
  title : String := ""
  keywords : List String := []
  abstract : String := ""
  csoc_result : List String := []
  gold_standard : List String := []
  skgc_topics : List String := []
  skgc_topics_ordered : List String := []
  gold_standard_ordered1 : List String := []
  gold_standard_ordered2 : List String := []
  csoc_topics_ordered : List String := []
  skgc_precision : ℚ := 0
  skgc_recall : ℚ := 0
  skgc_f1 : ℚ := 0
  csoc_precision : ℚ := 0
  csoc_recall : ℚ := 0
  csoc_f1 : ℚ := 0

/-- `query_gpt_agent` (SKGC.py lines 822-888): the user prompt is appended to
`messages_history` before the remote call; the response is stripped; a failed
remote call is caught and degrades to `""`.  In both cases the returned
history has gained exactly the one user turn.  (The fatal missing-credential
check and the fixed inter-call delay precede the append and are not part of
the value-level model.) -/
def query_gpt_agent (env : Env) (prompt : String) (messages_history : List Turn) :
    String × List Turn :=
  let mh := messages_history ++ [Turn.mk "user" prompt]
  match env.agentReply mh with
  | some r => (pyStrip r, mh)
  | none => ("", mh)

/-- The fixed system turn of the assistant role (SKGC.py lines 929-930; the
two adjacent Python string literals concatenate without a space). -/
def assistantSystemContent : String :=
  "Hello GPT, you are my very helpful and intelligent assistant for" ++
    "checking the answers of another GPT sister of yourself."

/-- The fresh two-turn context built by every `query_gpt_assistant` call
(SKGC.py lines 928-931): a fixed system turn plus the user prompt. -/
def assistantMessages (prompt : String) : List Turn :=
  [Turn.mk "system" assistantSystemContent, Turn.mk "user" prompt]

/-- `query_gpt_assistant` (SKGC.py lines 891-951): builds its own local
two-turn context, never receives the Agent's `messages_history`, strips the
response, and degrades a failed remote call to `""`. -/
def query_gpt_assistant (env : Env) (prompt : String) : String :=
  match env.assistantReply (assistantMessages prompt) with
  | some r => pyStrip r
  | none => ""

/-- The system turn the extraction pipeline appends at its start
(SKGC.py lines 368-369). -/
def systemTurn : Turn :=
  Turn.mk "system"
    "Hello GPT, you are my very helpful and intelligent assistant for a difficult task today."

/-- Extraction stage 1, Syntactic (SKGC.py lines 371-388): template 0 with
title/keywords/abstract substituted, Agent call (mutates the ledger),
Assistant verification of the raw response, verified text appended as an
assistant turn.  `none` models the `IndexError` on a too-short template list. -/
def extractStage1 (env : Env) (pub : Publication) (mh : List Turn) :
    Option (String × List Turn) :=
  match env.promptsAgent.get? 0, env.promptsAssistant.get? 0 with
  | some t, some ta =>
      let prompt1 :=
        pyReplace
          (pyReplace (pyReplace t "XXXtitleXXX" pub.title)
            "XXXkeywordsXXX" (list_to_comma_separated_string pub.keywords))
          "XXXabstractXXX" pub.abstract
      let ag := query_gpt_agent env prompt1 mh
      let response1 := query_gpt_assistant env (pyReplace ta "XXXagent1XXX" ag.1)
      some (response1, ag.2 ++ [Turn.mk "assistant" response1])
  | _, _ => none

/-- Extraction stage 2, Semantic (SKGC.py lines 390-401): template 1 with the
stage-1 verified text substituted; same Agent-Assistant-append sequence. -/
def extractStage2 (env : Env) (response1 : String) (mh : List Turn) :
    Option (String × List Turn) :=
  match env.promptsAgent.get? 1, env.promptsAssistant.get? 1 with
  | some t, some ta =>
      let prompt2 := pyReplace t "XXXresponse1XXX" response1
      let ag := query_gpt_agent env prompt2 mh
      let response2 := query_gpt_assistant env (pyReplace ta "XXXagent2XXX" ag.1)
      some (response2, ag.2 ++ [Turn.mk "assistant" response2])
  | _, _ => none

/-- Extraction stage 3, Review (SKGC.py lines 403-414): template 2 with the
stage-2 verified text substituted; same Agent-Assistant-append sequence. -/
def extractStage3 (env : Env) (response2 : String) (mh : List Turn) :
    Option (String × List Turn) :=
  match env.promptsAgent.get? 2, env.promptsAssistant.get? 2 with
  | some t, some ta =>
      let prompt3 := pyReplace t "XXXresponse2XXX" response2
      let ag := query_gpt_agent env prompt3 mh
      let response3 := query_gpt_assistant env (pyReplace ta "XXXagent3XXX" ag.1)
      some (response3, ag.2 ++ [Turn.mk "assistant" response3])
  | _, _ => none

/-- `extract_topics_one` (SKGC.py lines 344-417): append the initial system
turn, run the three stages, split the stage-3 verified text on commas and
strip each item. -/
def extract_topics_one (env : Env) (pub : Publication) (messages_history : List Turn) :
    Option (List String × List Turn) :=
  match extractStage1 env pub (messages_history ++ [systemTurn]) with
  | none => none
  | some s1 =>
    match extractStage2 env s1.1 s1.2 with
    | none => none
    | some s2 =>
      match extractStage3 env s2.1 s2.2 with
      | none => none
      | some s3 => some ((pySplit s3.1 ",").map pyStrip, s3.2)

/-- The extraction pipeline stopped after `n` completed stages (`n = 0` is the
state just after the initial system turn is appended; the ledger starts empty,
as in `extract_topics_all` line 624). -/
def runStages (env : Env) (pub : Publication) : Nat → Option (String × List Turn)
  | 0 => some ("", [systemTurn])
  | 1 => extractStage1 env pub [systemTurn]
  | 2 =>
    match extractStage1 env pub [systemTurn] with
    | none => none
    | some s1 => extractStage2 env s1.1 s1.2
  | 3 =>
    match extractStage1 env pub [systemTurn] with
    | none => none
    | some s1 =>
      match extractStage2 env s1.1 s1.2 with
      | none => none
      | some s2 => extractStage3 env s2.1 s2.2
  | _ + 4 => none

/-- The section-marker parse of the ordering responses (SKGC.py lines 498-501
with `marker1 = "Your result:"`, lines 557-560 with `marker1 = "CSOC result:"`):
`response.split(marker1)[1].split('Human expert result:')[0].strip().split(',')`
and `response.split('Human expert result:')[1].strip().split(',')`.
`[1]` on the result of a split whose separator does not occur raises an
uncaught `IndexError` (`none`); `[0]` always exists. -/
def parseOrderedLists (marker1 : String) (response : String) :
    Option (List String × List String) :=
  match (pySplit response marker1).get? 1 with
  | none => none
  | some after1 =>
    let firstPart := pyStrip ((pySplit after1 "Human expert result:").headD "")
    let firstList := pySplit firstPart ","
    match (pySplit response "Human expert result:").get? 1 with
    | none => none
    | some after2 => some (firstList, pySplit (pyStrip after2) ",")

/-- One ordering stage of `eval_one` (stage 1, lines 483-507, and stage 3,
lines 544-564): build the agent prompt from a template with the two keyword
lists substituted, Agent call, Assistant verification, section-marker parse,
append the verified text to the ledger.  Returns the two parsed (untrimmed)
lists, the verified response, and the new ledger. -/
def evalOrderStage (env : Env) (idx : Nat) (phA phB phCheck marker1 : String)
    (listA listB : List String) (mh : List Turn) :
    Option ((List String × List String) × String × List Turn) :=
  match env.promptsAgentEval.get? idx, env.promptsAssistantEval.get? idx with
  | some t, some ta =>
      let prompt :=
        pyReplace (pyReplace t phA (list_to_comma_separated_string listA))
          phB (list_to_comma_separated_string listB)
      let ag := query_gpt_agent env prompt mh
      let response := query_gpt_assistant env (pyReplace ta phCheck ag.1)
      match parseOrderedLists marker1 response with
      | none => none
      | some lists => some (lists, response, ag.2 ++ [Turn.mk "assistant" response])
  | _, _ => none

/-- One counting stage of `eval_one` (stage 2, lines 509-542, and stage 4,
lines 566-599): build the agent prompt from a template with the two ordered
lists substituted, Agent call, Assistant verification,
`response_to_integer`, then the metric block `computeMetrics`; the verified
text is appended to the ledger.  `none` models the `ValueError` that
`scipy.stats.hmean` raises inside the metric block. -/
def evalCountStage (env : Env) (idx : Nat) (phA phB phCheck : String)
    (ordered gold : List String) (mh : List Turn) :
    Option (MetricTriple × List Turn) :=
  match env.promptsAgentEval.get? idx, env.promptsAssistantEval.get? idx with
  | some t, some ta =>
      let prompt :=
        pyReplace (pyReplace t phA (list_to_comma_separated_string ordered))
          phB (list_to_comma_separated_string gold)
      let ag := query_gpt_agent env prompt mh
      let response := query_gpt_assistant env (pyReplace ta phCheck ag.1)
      let matching_topics := response_to_integer response
      match computeMetrics ordered gold matching_topics with
      | none => none
      | some m => some (m, ag.2 ++ [Turn.mk "assistant" response])
  | _, _ => none

/-- `eval_one` (SKGC.py lines 440-599): the four evaluation stages for one
publication, threading the Agent ledger, storing the trimmed ordered lists
and the two metric triples on the record.  `none` models any of the uncaught
exceptions (template `IndexError`, section-marker `IndexError`, `hmean`
`ValueError`), each of which aborts the run. -/
def eval_one (env : Env) (pub : Publication) (messages_history : List Turn) :
    Option (Publication × List Turn) :=
  match evalOrderStage env 0 "XXXskgc_topicsXXX" "XXXgold_standardXXX" "XXXagent4XXX"
      "Your result:" pub.skgc_topics pub.gold_standard messages_history with
  | none => none
  | some ((skgc_topics_ordered, gold_standard_ordered1), _, mh1) =>
    let pub1 := { pub with
      skgc_topics_ordered := skgc_topics_ordered.map pyStrip
      gold_standard_ordered1 := gold_standard_ordered1.map pyStrip }
    match evalCountStage env 1 "XXXskgc_topics_orderedXXX" "XXXgold_standard_orderedXXX"
        "XXXagent5XXX" skgc_topics_ordered gold_standard_ordered1 mh1 with
    | none => none
    | some (m1, mh2) =>
      let pub2 := { pub1 with
        skgc_precision := m1.precision
        skgc_recall := m1.recall'
        skgc_f1 := m1.f1 }
      match evalOrderStage env 2 "XXXcsoc_topicsXXX" "XXXgold_standardXXX" "XXXagent6XXX"
          "CSOC result:" pub.csoc_result pub.gold_standard mh2 with
      | none => none
      | some ((csoc_topics_ordered, gold_standard_ordered2), _, mh3) =>
        let pub3 := { pub2 with
          csoc_topics_ordered := csoc_topics_ordered.map pyStrip
          gold_standard_ordered2 := gold_standard_ordered2.map pyStrip }
        match evalCountStage env 3 "XXXcsoc_topics_orderedXXX" "XXXgold_standard_orderedXXX"
            "XXXagent7XXX" csoc_topics_ordered gold_standard_ordered2 mh3 with
        | none => none
        | some (m2, mh4) =>
          some ({ pub3 with
            csoc_precision := m2.precision
            csoc_recall := m2.recall'
            csoc_f1 := m2.f1 }, mh4)

/-- The corpus-level aggregation of `print_eval_details` (SKGC.py lines
745-784), in the script's evaluation order: the SKGC and CSOC precision means
and recall means are unguarded `hmean` calls over the per-record values
(lines 750-751, 761-762), while the two F1 means are guarded by
`all(x >= 0 ...)` and forced to `-1` otherwise (lines 773-782).  `none`
models the `ValueError` that `hmean` raises on a negative entry. -/
def print_eval_aggregates (pubs : List Publication) :
    Option (ℚ × ℚ × ℚ × ℚ × ℚ × ℚ) :=
  match hmean (pubs.map fun p => p.skgc_precision) with
  | none => none
  | some precision_mean_skgc =>
  match hmean (pubs.map fun p => p.csoc_precision) with
  | none => none
  | some precision_mean_csoc =>
  match hmean (pubs.map fun p => p.skgc_recall) with
  | none => none
  | some recall_mean_skgc =>
  match hmean (pubs.map fun p => p.csoc_recall) with
  | none => none
  | some recall_mean_csoc =>
  let f1_list_skgc := pubs.map fun p => p.skgc_f1
  let f1_list_csoc := pubs.map fun p => p.csoc_f1
  match (if f1_list_skgc.all fun x => decide (0 ≤ x) then hmean f1_list_skgc
         else some (-1)) with
  | none => none
  | some f1_mean_skgc =>
  match (if f1_list_csoc.all fun x => decide (0 ≤ x) then hmean f1_list_csoc
         else some (-1)) with
  | none => none
  | some f1_mean_csoc =>
    some (precision_mean_skgc, precision_mean_csoc, recall_mean_skgc,
      recall_mean_csoc, f1_mean_skgc, f1_mean_csoc)

/-! ### Concrete instances used by witnesses and counterexamples -/

/-- A concrete environment whose Agent always answers `"raw reply"` and whose
Assistant always answers `" t1 , t2 ,t1 "` (whitespace and a duplicate item,
to exercise trimming and duplicate preservation). -/
def wEnv : Env where
  agentReply := fun _ => some "raw reply"
  assistantReply := fun _ => some " t1 , t2 ,t1 "
  promptsAgent := ["a0", "a1", "a2"]
  promptsAssistant := ["s0", "s1", "s2"]
  promptsAgentEval := ["e0", "e1", "e2", "e3"]
  promptsAssistantEval := ["f0", "f1", "f2", "f3"]

/-- A concrete publication record. -/
def wPub : Publication := { title := "T", keywords := ["k1", "k2"], abstract := "A" }

/-- The verified text every Assistant call of `wEnv` produces
(`pyStrip " t1 , t2 ,t1 "`). -/
def wVerified : String := "t1 , t2 ,t1"

/-- The ledger after two completed extraction stages under `wEnv`. -/
def wLedger2 : List Turn :=
  [systemTurn, Turn.mk "user" "a0", Turn.mk "assistant" wVerified,
   Turn.mk "user" "a1", Turn.mk "assistant" wVerified]

/-- The ledger after all three extraction stages under `wEnv`. -/
def wLedger3 : List Turn :=
  [systemTurn, Turn.mk "user" "a0", Turn.mk "assistant" wVerified,
   Turn.mk "user" "a1", Turn.mk "assistant" wVerified,
   Turn.mk "user" "a2", Turn.mk "assistant" wVerified]

/-- The final topic list extracted under `wEnv` (duplicates preserved). -/
def wTopics : List String := ["t1", "t2", "t1"]

/-- The ledger produced by extraction stage 1 under `wEnv` started from an
empty ledger. -/
def wStage1Ledger : List Turn := [Turn.mk "user" "a0", Turn.mk "assistant" wVerified]

/-- An environment whose remote calls always fail. -/
def failEnv : Env where
  agentReply := fun _ => none
  assistantReply := fun _ => none
  promptsAgent := []
  promptsAssistant := []
  promptsAgentEval := []
  promptsAssistantEval := []

/-- An evaluated record whose six metrics are all the valid value `1/2`. -/
def goodPub : Publication :=
  { skgc_precision := 1/2, skgc_recall := 1/2, skgc_f1 := 1/2,
    csoc_precision := 1/2, csoc_recall := 1/2, csoc_f1 := 1/2 }

/-- `goodPub` with the SKGC precision degraded to the `-1` sentinel. -/
def negPrecPub : Publication := { goodPub with skgc_precision := -1 }

/-- `goodPub` with the SKGC precision degraded to `-2`. -/
def negPrec2Pub : Publication := { goodPub with skgc_precision := -2 }

/-- `goodPub` with the SKGC F1 degraded to the `-1` sentinel. -/
def negF1Pub : Publication := { goodPub with skgc_f1 := -1 }

/-- `goodPub` with the CSOC recall degraded to the `-1` sentinel. -/
def negRecallPub : Publication := { goodPub with csoc_recall := -1 }

/-! ### Helper lemmas -/

/-- `splitAux` always returns at least one piece, whatever the fuel. -/
theorem splitAux_ne_nil (sc : Char) (srest : List Char) :
    ∀ (fuel : Nat) (cs acc : List Char), splitAux sc srest fuel cs acc ≠ [] := by
  intro fuel
  induction fuel with
  | zero => intro cs acc; cases cs <;> simp [splitAux]
  | succ n ih =>
    intro cs acc
    cases cs with
    | nil => simp [splitAux]
    | cons c rest =>
      rw [splitAux]
      split
      · simp
      · exact ih rest (c :: acc)

/-- Python `split` never returns an empty list: even `"".split(",") = [""]`. -/
theorem pySplit_ne_nil (s sep : String) : pySplit s sep ≠ [] := by
  unfold pySplit pySplitCore
  cases sep.data with
  | nil => simp
  | cons sc srest => simp [splitAux_ne_nil]

/-- Python `split` yields at least one element. -/
theorem pySplit_length_pos (s sep : String) : 1 ≤ (pySplit s sep).length :=
  List.length_pos.mpr (pySplit_ne_nil s sep)

/-- The ledger returned by `query_gpt_agent` is always the input ledger plus
the one user turn, whether or not the remote call succeeded. -/
theorem query_gpt_agent_snd (env : Env) (prompt : String) (mh : List Turn) :
    (query_gpt_agent env prompt mh).2 = mh ++ [Turn.mk "user" prompt] := by
  cases h : env.agentReply (mh ++ [Turn.mk "user" prompt]) <;>
    simp [query_gpt_agent, h]

/-- A successful extraction stage 1 appends exactly one user turn and one
assistant turn holding the Assistant-verified text. -/
theorem extractStage1_shape (env : Env) (pub : Publication) (mh : List Turn)
    (v : String) (L : List Turn) (h : extractStage1 env pub mh = some (v, L)) :
    (∃ q, L = mh ++ [Turn.mk "user" q, Turn.mk "assistant" v]) ∧
      ∃ p, v = query_gpt_assistant env p := by
  unfold extractStage1 at h
  split at h
  case h_2 => exact absurd h (by simp)
  case h_1 t ta ht hta =>
    rw [Option.some_inj, Prod.mk.injEq] at h
    obtain ⟨hv, hL⟩ := h
    subst hv
    subst hL
    rw [query_gpt_agent_snd, List.append_assoc]
    exact ⟨⟨_, rfl⟩, ⟨_, rfl⟩⟩

/-- A successful extraction stage 2 appends exactly one user turn and one
assistant turn holding the Assistant-verified text. -/
theorem extractStage2_shape (env : Env) (r1 : String) (mh : List Turn)
    (v : String) (L : List Turn) (h : extractStage2 env r1 mh = some (v, L)) :
    (∃ q, L = mh ++ [Turn.mk "user" q, Turn.mk "assistant" v]) ∧
      ∃ p, v = query_gpt_assistant env p := by
  unfold extractStage2 at h
  split at h
  case h_2 => exact absurd h (by simp)
  case h_1 t ta ht hta =>
    rw [Option.some_inj, Prod.mk.injEq] at h
    obtain ⟨hv, hL⟩ := h
    subst hv
    subst hL
    rw [query_gpt_agent_snd, List.append_assoc]
    exact ⟨⟨_, rfl⟩, ⟨_, rfl⟩⟩

/-- A successful extraction stage 3 appends exactly one user turn and one
assistant turn holding the Assistant-verified text. -/
theorem extractStage3_shape (env : Env) (r2 : String) (mh : List Turn)
    (v : String) (L : List Turn) (h : extractStage3 env r2 mh = some (v, L)) :
    (∃ q, L = mh ++ [Turn.mk "user" q, Turn.mk "assistant" v]) ∧
      ∃ p, v = query_gpt_assistant env p := by
  unfold extractStage3 at h
  split at h
  case h_2 => exact absurd h (by simp)
  case h_1 t ta ht hta =>
    rw [Option.some_inj, Prod.mk.injEq] at h
    obtain ⟨hv, hL⟩ := h
    subst hv
    subst hL
    rw [query_gpt_agent_snd, List.append_assoc]
    exact ⟨⟨_, rfl⟩, ⟨_, rfl⟩⟩

/-- `extract_topics_one` started on an empty ledger is the three-stage run
followed by the comma split and per-item strip of the final verified text. -/
theorem extract_eq_runStages (env : Env) (pub : Publication) :
    extract_topics_one env pub [] =
      (runStages env pub 3).map fun s3 => ((pySplit s3.1 ",").map pyStrip, s3.2) := by
  unfold extract_topics_one runStages
  simp only [List.nil_append]
  cases h1 : extractStage1 env pub [systemTurn] with
  | none => rfl
  | some s1 =>
    dsimp only
    cases h2 : extractStage2 env s1.1 s1.2 with
    | none => rfl
    | some s2 =>
      dsimp only
      cases h3 : extractStage3 env s2.1 s2.2 with
      | none => rfl
      | some s3 => rfl

/-- `scipy.stats.hmean` raises (returns `none`) when the list holds a
negative entry. -/
theorem hmean_eq_none (xs : List ℚ) (h : ∃ x ∈ xs, x < 0) : hmean xs = none := by
  unfold hmean
  rw [if_pos]
  simp only [List.any_eq_true, decide_eq_true_eq]
  exact h

/-- `scipy.stats.hmean` succeeds on lists of non-negative entries. -/
theorem hmean_isSome_of_nonneg (xs : List ℚ) (h : ∀ x ∈ xs, 0 ≤ x) :
    ∃ q, hmean xs = some q := by
  unfold hmean
  rw [if_neg]
  · split
    · exact ⟨0, rfl⟩
    · exact ⟨_, rfl⟩
  · simp only [List.any_eq_true, decide_eq_true_eq, not_exists]
    intro x
    rw [not_and]
    intro hx
    exact not_lt.mpr (h x hx)

/-- `scipy.stats.hmean` on a pair of positive rationals. -/
theorem hmean_pair (p r : ℚ) (hp : 0 < p) (hr : 0 < r) :
    hmean [p, r] = some (2 / (p⁻¹ + r⁻¹)) := by
  unfold hmean
  rw [if_neg, if_neg]
  · norm_num
  · simp only [List.any_cons, List.any_nil, Bool.or_false, Bool.or_eq_true,
      decide_eq_true_eq]
    push_neg
    exact ⟨hp.ne', hr.ne'⟩
  · simp only [List.any_cons, List.any_nil, Bool.or_false, Bool.or_eq_true,
      decide_eq_true_eq]
    push_neg
    exact ⟨hp.le, hr.le⟩

/-- The guarded F1 aggregation of `print_eval_details` always produces a
value: the harmonic mean when all entries are non-negative, `-1` otherwise. -/
theorem f1_guard_isSome (xs : List ℚ) :
    ∃ q, (if xs.all fun x => decide (0 ≤ x) then hmean xs else some (-1)) = some q := by
  split
  case isTrue h =>
    apply hmean_isSome_of_nonneg
    intro x hx
    exact of_decide_eq_true (List.all_eq_true.mp h x hx)
  case isFalse h => exact ⟨-1, rfl⟩

/-- If any of the four unguarded mean computations of `print_eval_details`
raises (`none`), the whole aggregation aborts: the `none` propagates through
the chain of lines 750-762 whatever the other means produce. -/
theorem print_eval_aggregates_none_of_mean_none (pubs : List Publication)
    (h : hmean (pubs.map fun p => p.skgc_precision) = none ∨
      hmean (pubs.map fun p => p.csoc_precision) = none ∨
      hmean (pubs.map fun p => p.skgc_recall) = none ∨
      hmean (pubs.map fun p => p.csoc_recall) = none) :
    print_eval_aggregates pubs = none := by
  unfold print_eval_aggregates
  rcases h with h | h | h | h
  · rw [h]
  · cases h1 : hmean (pubs.map fun p => p.skgc_precision) with
    | none => rfl
    | some a =>
      dsimp only
      rw [h]
  · cases h1 : hmean (pubs.map fun p => p.skgc_precision) with
    | none => rfl
    | some a =>
      dsimp only
      cases h2 : hmean (pubs.map fun p => p.csoc_precision) with
      | none => rfl
      | some b =>
        dsimp only
        rw [h]
  · cases h1 : hmean (pubs.map fun p => p.skgc_precision) with
    | none => rfl
    | some a =>
      dsimp only
      cases h2 : hmean (pubs.map fun p => p.csoc_precision) with
      | none => rfl
      | some b =>
        dsimp only
        cases h3 : hmean (pubs.map fun p => p.skgc_recall) with
        | none => rfl
        | some d =>
          dsimp only
          rw [h]

/-! ### Claim theorems -/

/-- C2, counterexample.  The claim asserts that for an empty candidate list,
gold list `["x"]` and any match count the metric block yields
`precision = -1, recall = 0, f1 = -1`.  In fact with count `0` (the only
count giving recall `0`) the block reaches `hmean([-1, 0.0])`, which raises
`ValueError` (`none`): no `f1` is produced at all; and with count `1` the
recall is `1`, not `0`. -/
theorem C2_counterexample :
    computeMetrics ([] : List String) ["x"] 0 = none ∧
    computeMetrics ([] : List String) ["x"] 1 = some ⟨-1, 1, -1⟩ := by
  constructor
  · norm_num [computeMetrics, precisionOf, recallOf, hmean]
  · norm_num [computeMetrics, precisionOf, recallOf]

/-- C2, amended.  For the metric block with empty candidate list and gold
list `["x"]`: precision is the sentinel `-1` and recall is the count; when
the count is `1` (so `precision + recall == 0`) the guard fires and
`f1 = -1`; for every other count the `hmean` call receives the negative
sentinel and raises, so the evaluation aborts with no `f1`. -/
theorem C2_empty_candidate_metrics (c : ℤ) :
    computeMetrics [] ["x"] c = if c = 1 then some ⟨-1, 1, -1⟩ else none := by
  have hp : precisionOf [] c = -1 := by norm_num [precisionOf]
  have hr : recallOf ["x"] c = (c : ℚ) := by norm_num [recallOf]
  simp only [computeMetrics, hp, hr]
  by_cases hc : c = 1
  · subst hc
    norm_num
  · have h0 : (-1 : ℚ) + (c : ℚ) ≠ 0 := by
      intro h
      apply hc
      have : (c : ℚ) = 1 := by linarith
      exact_mod_cast this
    rw [if_neg h0, if_neg hc, hmean_eq_none [-1, (c : ℚ)] ⟨-1, by simp, by norm_num⟩]
    rfl

/-- C3, counterexample.  The claim asserts that a response missing the
section marker is recovered by substituting empty lists.  In fact the parse
of `"hello"` (no `"Your result:"` marker) hits `split(...)[1]` on a
one-element list: an uncaught `IndexError` (`none`), not
`some ([], [])`. -/
theorem C3_counterexample :
    parseOrderedLists "Your result:" "hello" = none ∧
    parseOrderedLists "Your result:" "hello" ≠ some ([], []) := by
  constructor
  · rfl
  · intro h
    have h' : (none : Option (List String × List String)) = some ([], []) := by
      rw [← h]
      rfl
    exact Option.noConfusion h'

/-- C3, amended.  When a section marker is absent from the ordering
response (the marker split has no second part), the parse raises an
uncaught `IndexError` (`none`) that propagates and aborts the pipeline;
missing markers are not recovered as empty lists. -/
theorem C3_missing_marker_aborts (marker1 response : String) :
    ((pySplit response marker1).get? 1 = none →
      parseOrderedLists marker1 response = none) ∧
    ((pySplit response "Human expert result:").get? 1 = none →
      parseOrderedLists marker1 response = none) := by
  constructor
  · intro h
    unfold parseOrderedLists
    rw [h]
  · intro h
    unfold parseOrderedLists
    cases (pySplit response marker1).get? 1 with
    | none => rfl
    | some a => rw [h]

/-- C3, witness for `C3_missing_marker_aborts` at concrete inputs without
markers. -/
theorem C3_witness :
    parseOrderedLists "Your result:" "no markers here" = none ∧
    parseOrderedLists "CSOC result:" "also no markers" = none :=
  ⟨(C3_missing_marker_aborts "Your result:" "no markers here").1 rfl,
   (C3_missing_marker_aborts "CSOC result:" "also no markers").1 rfl⟩

/-- C4, counterexample.  The claim quantifies over every match count the
count stage accepts, but `response_to_integer` accepts any integer: with
count `2` on singleton lists the metric block yields
`precision = recall = f1 = 2`, outside `[0, 1]`. -/
theorem C4_counterexample :
    response_to_integer "2" = 2 ∧
    computeMetrics ["a"] ["a"] 2 = some ⟨2, 2, 2⟩ ∧
    ¬ ((2 : ℚ) ≤ 1) := by
  refine ⟨rfl, ?_, by norm_num⟩
  norm_num [computeMetrics, precisionOf, recallOf, hmean]

/-- C4, amended.  For non-empty candidate and gold lists and a match count
between `0` and each list length, the metric block succeeds with precision
and recall in `[0, 1]` and f1 in `[0, 1]` or exactly `-1`, the latter only
when `precision + recall = 0`. -/
theorem C4_metrics_range (cand gold : List String) (c : ℤ)
    (hcand : cand ≠ []) (hgold : gold ≠ []) (hc0 : 0 ≤ c)
    (hcm : c ≤ (cand.length : ℤ)) (hcn : c ≤ (gold.length : ℤ)) :
    ∃ m : MetricTriple, computeMetrics cand gold c = some m ∧
      0 ≤ m.precision ∧ m.precision ≤ 1 ∧ 0 ≤ m.recall' ∧ m.recall' ≤ 1 ∧
      ((0 ≤ m.f1 ∧ m.f1 ≤ 1) ∨ (m.f1 = -1 ∧ m.precision + m.recall' = 0)) ∧
      (m.f1 = -1 → m.precision + m.recall' = 0) := by
  have hmQ : (0 : ℚ) < (cand.length : ℚ) := by
    have := List.length_pos.mpr hcand
    exact_mod_cast this
  have hnQ : (0 : ℚ) < (gold.length : ℚ) := by
    have := List.length_pos.mpr hgold
    exact_mod_cast this
  have hcQ : (0 : ℚ) ≤ (c : ℚ) := by exact_mod_cast hc0
  have hcmQ : (c : ℚ) ≤ (cand.length : ℚ) := by exact_mod_cast hcm
  have hcnQ : (c : ℚ) ≤ (gold.length : ℚ) := by exact_mod_cast hcn
  have hp : precisionOf cand c = (c : ℚ) / (cand.length : ℚ) := by
    rw [precisionOf, if_neg (List.length_pos.mpr hcand).ne']
  have hr : recallOf gold c = (c : ℚ) / (gold.length : ℚ) := by
    rw [recallOf, if_neg (List.length_pos.mpr hgold).ne']
  have hp0 : 0 ≤ precisionOf cand c := by rw [hp]; exact div_nonneg hcQ hmQ.le
  have hp1 : precisionOf cand c ≤ 1 := by rw [hp, div_le_one hmQ]; exact hcmQ
  have hr0 : 0 ≤ recallOf gold c := by rw [hr]; exact div_nonneg hcQ hnQ.le
  have hr1 : recallOf gold c ≤ 1 := by rw [hr, div_le_one hnQ]; exact hcnQ
  simp only [computeMetrics]
  by_cases hz : precisionOf cand c + recallOf gold c = 0
  · rw [if_pos hz]
    exact ⟨_, rfl, hp0, hp1, hr0, hr1, Or.inr ⟨rfl, hz⟩, fun _ => hz⟩
  · rw [if_neg hz]
    have hc' : (c : ℚ) ≠ 0 := by
      intro h0
      apply hz
      rw [hp, hr, h0]
      simp
    have hcpos : (0 : ℚ) < (c : ℚ) := lt_of_le_of_ne hcQ (Ne.symm hc')
    have hppos : 0 < precisionOf cand c := by rw [hp]; exact div_pos hcpos hmQ
    have hrpos : 0 < recallOf gold c := by rw [hr]; exact div_pos hcpos hnQ
    rw [hmean_pair _ _ hppos hrpos]
    have hip : 1 ≤ (precisionOf cand c)⁻¹ := (one_le_inv₀ hppos).2 hp1
    have hir : 1 ≤ (recallOf gold c)⁻¹ := (one_le_inv₀ hrpos).2 hr1
    have hsum : (0 : ℚ) < (precisionOf cand c)⁻¹ + (recallOf gold c)⁻¹ := by linarith
    have hf0 : 0 ≤ 2 / ((precisionOf cand c)⁻¹ + (recallOf gold c)⁻¹) :=
      div_nonneg (by norm_num) hsum.le
    have hf1 : 2 / ((precisionOf cand c)⁻¹ + (recallOf gold c)⁻¹) ≤ 1 := by
      rw [div_le_one hsum]
      linarith
    have hfpos : 0 < 2 / ((precisionOf cand c)⁻¹ + (recallOf gold c)⁻¹) :=
      div_pos (by norm_num) hsum
    refine ⟨⟨precisionOf cand c, recallOf gold c,
      2 / ((precisionOf cand c)⁻¹ + (recallOf gold c)⁻¹)⟩, by simp,
      hp0, hp1, hr0, hr1, Or.inl ⟨hf0, hf1⟩, ?_⟩
    intro hf
    exfalso
    dsimp only at hf
    rw [hf] at hfpos
    norm_num at hfpos

/-- C4, witness for `C4_metrics_range` at concrete lists and count. -/
theorem C4_witness :
    ∃ m : MetricTriple, computeMetrics ["a", "b"] ["x", "y", "z"] 2 = some m ∧
      0 ≤ m.precision ∧ m.precision ≤ 1 ∧ 0 ≤ m.recall' ∧ m.recall' ≤ 1 ∧
      ((0 ≤ m.f1 ∧ m.f1 ≤ 1) ∨ (m.f1 = -1 ∧ m.precision + m.recall' = 0)) ∧
      (m.f1 = -1 → m.precision + m.recall' = 0) :=
  C4_metrics_range ["a", "b"] ["x", "y", "z"] 2 (by simp) (by simp)
    (by norm_num) (by norm_num) (by norm_num)

/-- C7: a match-count response that does not parse as a Python integer is
converted to `0` by the guarded `except` branch (a total function: the parse
failure never escapes), and a response that does parse yields exactly that
integer. -/
theorem C7_response_to_integer_spec (s : String) :
    (pyIntParse s = none → response_to_integer s = 0) ∧
    ∀ n : ℤ, pyIntParse s = some n → response_to_integer s = n := by
  unfold response_to_integer
  constructor
  · intro h
    rw [h]
  · intro n h
    rw [h]

/-- C7, witness for `C7_response_to_integer_spec` at the spec's `"abc"`
scenario and at a parsing input. -/
theorem C7_witness : response_to_integer "abc" = 0 ∧ response_to_integer "17" = 17 :=
  ⟨(C7_response_to_integer_spec "abc").1 rfl,
   (C7_response_to_integer_spec "17").2 17 rfl⟩

/-- C9: comma-splitting any response yields at least one element, so for
lists obtained by comma-splitting, the empty-list sentinel branches of the
metric block are unreachable: precision and recall are always the quotient
by the (positive) list length, and the empty response yields the singleton
`[""]` with precision and recall computed as `count / 1`. -/
theorem C9_split_sentinel_unreachable (s gold : String) (c : ℤ) :
    1 ≤ (pySplit s ",").length ∧ 1 ≤ (pySplit gold ",").length ∧
    precisionOf (pySplit s ",") c = (c : ℚ) / ((pySplit s ",").length : ℚ) ∧
    recallOf (pySplit gold ",") c = (c : ℚ) / ((pySplit gold ",").length : ℚ) ∧
    pySplit "" "," = [""] ∧
    precisionOf (pySplit "" ",") c = (c : ℚ) ∧
    recallOf (pySplit "" ",") c = (c : ℚ) := by
  have h1 := pySplit_length_pos s ","
  have h2 := pySplit_length_pos gold ","
  refine ⟨h1, h2, ?_, ?_, rfl, ?_, ?_⟩
  · rw [precisionOf, if_neg (by omega)]
  · rw [recallOf, if_neg (by omega)]
  · show precisionOf [""] c = (c : ℚ)
    norm_num [precisionOf]
  · show recallOf [""] c = (c : ℚ)
    norm_num [recallOf]

/-- C10: when the remote Agent call fails, `query_gpt_agent` returns empty
text, and the ledger has still gained exactly the one user turn appended
before the call — the append is not rolled back. -/
theorem C10_agent_failure_ledger (env : Env) (p : String) (mh : List Turn)
    (h : env.agentReply (mh ++ [Turn.mk "user" p]) = none) :
    query_gpt_agent env p mh = ("", mh ++ [Turn.mk "user" p]) ∧
    (query_gpt_agent env p mh).2.length = mh.length + 1 := by
  constructor
  · simp [query_gpt_agent, h]
  · rw [query_gpt_agent_snd]
    simp

/-- C10, witness for `C10_agent_failure_ledger` under `failEnv`. -/
theorem C10_witness :
    query_gpt_agent failEnv "q" [] = ("", [Turn.mk "user" "q"]) ∧
    (query_gpt_agent failEnv "q" []).2.length = List.length ([] : List Turn) + 1 :=
  C10_agent_failure_ledger failEnv "q" [] rfl

/-- C5: starting from the empty ledger, after `n` completed extraction stages
(`n` in `{1, 2, 3}`) the ledger holds exactly `n` assistant-role turns, one
appended by each stage, exactly one system turn — the initial one, at the
head — and every assistant-role turn's content is an output of
`query_gpt_assistant`: no raw Agent response is ever stored. -/
theorem C5_ledger_shape (env : Env) (pub : Publication) (n : Nat)
    (hn : 1 ≤ n ∧ n ≤ 3) (v : String) (L : List Turn)
    (h : runStages env pub n = some (v, L)) :
    (L.filter fun t => t.role == "assistant").length = n ∧
    (L.filter fun t => t.role == "system").length = 1 ∧
    L.head? = some systemTurn ∧
    ∀ t ∈ L, t.role = "assistant" → ∃ p, t.content = query_gpt_assistant env p := by
  obtain ⟨hn1, hn3⟩ := hn
  interval_cases n
  · obtain ⟨⟨q1, rfl⟩, p1, hp1⟩ := extractStage1_shape env pub [systemTurn] v L h
    refine ⟨by simp [systemTurn], by simp [systemTurn], by simp, ?_⟩
    intro t ht hrole
    simp only [List.cons_append, List.nil_append, List.mem_cons, List.not_mem_nil,
      or_false] at ht
    rcases ht with rfl | rfl | rfl
    · exact absurd hrole (by simp [systemTurn])
    · exact absurd hrole (by simp)
    · exact ⟨p1, hp1⟩
  · rw [runStages] at h
    split at h
    case h_1 => exact absurd h (by simp)
    case h_2 s1 heq1 =>
      obtain ⟨⟨q1, hL1⟩, p1, hp1⟩ :=
        extractStage1_shape env pub [systemTurn] s1.1 s1.2 (by rw [heq1])
      obtain ⟨⟨q2, rfl⟩, p2, hp2⟩ := extractStage2_shape env s1.1 s1.2 v L h
      rw [hL1]
      refine ⟨by simp [systemTurn], by simp [systemTurn], by simp, ?_⟩
      intro t ht hrole
      simp only [List.cons_append, List.nil_append, List.mem_cons, List.not_mem_nil,
        or_false, List.mem_append] at ht
      rcases ht with rfl | rfl | rfl | rfl | rfl
      · exact absurd hrole (by simp [systemTurn])
      · exact absurd hrole (by simp)
      · exact ⟨p1, hp1⟩
      · exact absurd hrole (by simp)
      · exact ⟨p2, hp2⟩
  · rw [runStages] at h
    split at h
    case h_1 => exact absurd h (by simp)
    case h_2 s1 heq1 =>
      split at h
      case h_1 => exact absurd h (by simp)
      case h_2 s2 heq2 =>
        obtain ⟨⟨q1, hL1⟩, p1, hp1⟩ :=
          extractStage1_shape env pub [systemTurn] s1.1 s1.2 (by rw [heq1])
        obtain ⟨⟨q2, hL2⟩, p2, hp2⟩ :=
          extractStage2_shape env s1.1 s1.2 s2.1 s2.2 (by rw [heq2])
        obtain ⟨⟨q3, rfl⟩, p3, hp3⟩ := extractStage3_shape env s2.1 s2.2 v L h
        rw [hL2, hL1]
        refine ⟨by simp [systemTurn], by simp [systemTurn], by simp, ?_⟩
        intro t ht hrole
        simp only [List.cons_append, List.nil_append, List.mem_cons, List.not_mem_nil,
          or_false, List.mem_append] at ht
        rcases ht with rfl | rfl | rfl | rfl | rfl | rfl | rfl
        · exact absurd hrole (by simp [systemTurn])
        · exact absurd hrole (by simp)
        · exact ⟨p1, hp1⟩
        · exact absurd hrole (by simp)
        · exact ⟨p2, hp2⟩
        · exact absurd hrole (by simp)
        · exact ⟨p3, hp3⟩

/-- C5, witness for `C5_ledger_shape` after two stages under `wEnv`. -/
theorem C5_witness :
    (wLedger2.filter fun t => t.role == "assistant").length = 2 ∧
    (wLedger2.filter fun t => t.role == "system").length = 1 ∧
    wLedger2.head? = some systemTurn ∧
    ∀ t ∈ wLedger2, t.role = "assistant" → ∃ p, t.content = query_gpt_assistant wEnv p :=
  C5_ledger_shape wEnv wPub 2 ⟨by norm_num, by norm_num⟩ wVerified wLedger2 rfl

/-- C6: every Assistant call builds its own fresh two-turn context — the
fixed system turn plus the user prompt — its response is a function of that
context alone, and an extraction stage's ledger growth consists of the agent
user turn and the caller's verified append only: the Assistant call neither
reads from nor appends to the ledger. -/
theorem C6_assistant_fresh_context (env : Env) (p : String) (pub : Publication)
    (mh : List Turn) :
    assistantMessages p = [Turn.mk "system" assistantSystemContent, Turn.mk "user" p] ∧
    (∀ r, env.assistantReply (assistantMessages p) = some r →
      query_gpt_assistant env p = pyStrip r) ∧
    (env.assistantReply (assistantMessages p) = none → query_gpt_assistant env p = "") ∧
    ∀ v L, extractStage1 env pub mh = some (v, L) →
      ∃ q, L = mh ++ [Turn.mk "user" q, Turn.mk "assistant" v] := by
  refine ⟨rfl, ?_, ?_, ?_⟩
  · intro r hr
    simp [query_gpt_assistant, hr]
  · intro hn
    simp [query_gpt_assistant, hn]
  · intro v L h
    exact (extractStage1_shape env pub mh v L h).1

/-- C6, witness for `C6_assistant_fresh_context` under `wEnv`. -/
theorem C6_witness :
    query_gpt_assistant wEnv "p" = pyStrip " t1 , t2 ,t1 " ∧
    ∃ q, wStage1Ledger = [] ++ [Turn.mk "user" q, Turn.mk "assistant" wVerified] :=
  ⟨(C6_assistant_fresh_context wEnv "p" wPub []).2.1 " t1 , t2 ,t1 " rfl,
   (C6_assistant_fresh_context wEnv "p" wPub []).2.2.2 wVerified wStage1Ledger rfl⟩

/-- C8: whenever extraction completes, the final topic list is exactly the
third-stage verified text split on commas with each item stripped — same
length as the split (no deduplication) and itemwise equal in order. -/
theorem C8_final_topic_list (env : Env) (pub : Publication) (topics : List String)
    (L : List Turn) (h : extract_topics_one env pub [] = some (topics, L)) :
    ∃ v L3, runStages env pub 3 = some (v, L3) ∧ L = L3 ∧
      topics = (pySplit v ",").map pyStrip ∧
      topics.length = (pySplit v ",").length ∧
      ∀ i : Nat, topics[i]? = ((pySplit v ",")[i]?).map pyStrip := by
  rw [extract_eq_runStages] at h
  cases h3 : runStages env pub 3 with
  | none =>
    rw [h3] at h
    exact absurd h (by simp)
  | some s3 =>
    rw [h3] at h
    simp only [Option.map_some', Option.some_inj, Prod.mk.injEq] at h
    obtain ⟨ht, hL⟩ := h
    subst hL
    refine ⟨s3.1, s3.2, rfl, rfl, ht.symm, ?_, ?_⟩
    · rw [← ht]
      simp
    · intro i
      rw [← ht]
      simp [List.getElem?_map]

/-- C8, witness for `C8_final_topic_list` under `wEnv`: the verified review
text `"t1 , t2 ,t1"` yields `["t1", "t2", "t1"]`, duplicates preserved. -/
theorem C8_witness :
    ∃ v L3, runStages wEnv wPub 3 = some (v, L3) ∧ wLedger3 = L3 ∧
      wTopics = (pySplit v ",").map pyStrip ∧
      wTopics.length = (pySplit v ",").length ∧
      ∀ i : Nat, wTopics[i]? = ((pySplit v ",")[i]?).map pyStrip :=
  C8_final_topic_list wEnv wPub wTopics wLedger3 rfl

/-- C1, counterexample.  The claim asserts the corpus aggregate of each
metric is forced to `-1` when a record's value is negative.  For precision
the aggregation is an unguarded `scipy.stats.hmean` call, which raises
`ValueError` on the `-1` sentinel: the whole aggregation aborts (`none`)
instead of producing `-1`. -/
theorem C1_counterexample : print_eval_aggregates [negPrecPub] = none := by
  have h : hmean ([negPrecPub].map fun p => p.skgc_precision) = none := by
    apply hmean_eq_none
    exact ⟨negPrecPub.skgc_precision, List.mem_map_of_mem _ (by simp),
      by norm_num [negPrecPub]⟩
  unfold print_eval_aggregates
  rw [h]

/-- C1, amended.  Only the two F1 corpus aggregates are guarded: for each
system, a negative per-record F1 forces that system's corpus F1 to `-1`, and
with all its F1 values non-negative it is the harmonic mean.  The four
precision and recall aggregates (both systems) are unguarded harmonic means:
a negative per-record precision or recall value of either system makes the
aggregation raise (`none`) rather than produce `-1`. -/
theorem C1_aggregate_guard_only_f1 (pubs : List Publication) :
    ((∃ pub ∈ pubs, pub.skgc_precision < 0 ∨ pub.csoc_precision < 0 ∨
        pub.skgc_recall < 0 ∨ pub.csoc_recall < 0) →
      print_eval_aggregates pubs = none) ∧
    ((∀ pub ∈ pubs, 0 ≤ pub.skgc_precision ∧ 0 ≤ pub.csoc_precision ∧
        0 ≤ pub.skgc_recall ∧ 0 ≤ pub.csoc_recall) →
      ∃ a b d e f g, print_eval_aggregates pubs = some (a, b, d, e, f, g) ∧
        hmean (pubs.map fun p => p.skgc_precision) = some a ∧
        hmean (pubs.map fun p => p.csoc_precision) = some b ∧
        hmean (pubs.map fun p => p.skgc_recall) = some d ∧
        hmean (pubs.map fun p => p.csoc_recall) = some e ∧
        ((∃ pub ∈ pubs, pub.skgc_f1 < 0) → f = -1) ∧
        ((∀ pub ∈ pubs, 0 ≤ pub.skgc_f1) →
          hmean (pubs.map fun p => p.skgc_f1) = some f) ∧
        ((∃ pub ∈ pubs, pub.csoc_f1 < 0) → g = -1) ∧
        ((∀ pub ∈ pubs, 0 ≤ pub.csoc_f1) →
          hmean (pubs.map fun p => p.csoc_f1) = some g)) := by
  constructor
  · intro ⟨pub, hmem, hneg⟩
    apply print_eval_aggregates_none_of_mean_none
    rcases hneg with h | h | h | h
    · exact Or.inl (hmean_eq_none _ ⟨_, List.mem_map_of_mem _ hmem, h⟩)
    · exact Or.inr (Or.inl (hmean_eq_none _ ⟨_, List.mem_map_of_mem _ hmem, h⟩))
    · exact Or.inr (Or.inr (Or.inl (hmean_eq_none _ ⟨_, List.mem_map_of_mem _ hmem, h⟩)))
    · exact Or.inr (Or.inr (Or.inr (hmean_eq_none _ ⟨_, List.mem_map_of_mem _ hmem, h⟩)))
  · intro h4
    obtain ⟨a, ha⟩ := hmean_isSome_of_nonneg (pubs.map fun p => p.skgc_precision)
      (by intro x hx; obtain ⟨p, hp, rfl⟩ := List.mem_map.mp hx; exact (h4 p hp).1)
    obtain ⟨b, hb⟩ := hmean_isSome_of_nonneg (pubs.map fun p => p.csoc_precision)
      (by intro x hx; obtain ⟨p, hp, rfl⟩ := List.mem_map.mp hx; exact (h4 p hp).2.1)
    obtain ⟨d, hd⟩ := hmean_isSome_of_nonneg (pubs.map fun p => p.skgc_recall)
      (by intro x hx; obtain ⟨p, hp, rfl⟩ := List.mem_map.mp hx; exact (h4 p hp).2.2.1)
    obtain ⟨e, he⟩ := hmean_isSome_of_nonneg (pubs.map fun p => p.csoc_recall)
      (by intro x hx; obtain ⟨p, hp, rfl⟩ := List.mem_map.mp hx; exact (h4 p hp).2.2.2)
    obtain ⟨f, hf⟩ := f1_guard_isSome (pubs.map fun p => p.skgc_f1)
    obtain ⟨g, hg⟩ := f1_guard_isSome (pubs.map fun p => p.csoc_f1)
    refine ⟨a, b, d, e, f, g, ?_, ha, hb, hd, he, ?_, ?_, ?_, ?_⟩
    · unfold print_eval_aggregates
      rw [ha, hb, hd, he]
      dsimp only
      rw [hf, hg]
    · intro ⟨pub, hmem, hneg⟩
      rw [if_neg] at hf
      · exact (Option.some_inj.mp hf).symm
      · simp only [List.all_eq_true, decide_eq_true_eq, not_forall]
        exact ⟨pub.skgc_f1, List.mem_map_of_mem _ hmem, not_le.mpr hneg⟩
    · intro hall
      rw [if_pos] at hf
      · exact hf
      · simp only [List.all_eq_true, decide_eq_true_eq]
        intro x hx
        obtain ⟨p, hp, rfl⟩ := List.mem_map.mp hx
        exact hall p hp
    · intro ⟨pub, hmem, hneg⟩
      rw [if_neg] at hg
      · exact (Option.some_inj.mp hg).symm
      · simp only [List.all_eq_true, decide_eq_true_eq, not_forall]
        exact ⟨pub.csoc_f1, List.mem_map_of_mem _ hmem, not_le.mpr hneg⟩
    · intro hall
      rw [if_pos] at hg
      · exact hg
      · simp only [List.all_eq_true, decide_eq_true_eq]
        intro x hx
        obtain ⟨p, hp, rfl⟩ := List.mem_map.mp hx
        exact hall p hp

/-- C1, witness for `C1_aggregate_guard_only_f1`: a record with negative
SKGC precision aborts the aggregation, as does one with negative CSOC
recall; a record with negative SKGC F1 (all precision and recall values
valid) yields a result whose SKGC F1 aggregate is the forced `-1` while the
CSOC F1 aggregate is the harmonic mean of its (valid) values. -/
theorem C1_witness :
    print_eval_aggregates [negPrec2Pub] = none ∧
    print_eval_aggregates [negRecallPub] = none ∧
    ∃ a b d e f g, print_eval_aggregates [negF1Pub] = some (a, b, d, e, f, g) ∧
      f = -1 ∧ hmean ([negF1Pub].map fun p => p.csoc_f1) = some g := by
  refine ⟨?_, ?_, ?_⟩
  · exact (C1_aggregate_guard_only_f1 [negPrec2Pub]).1
      ⟨negPrec2Pub, by simp, Or.inl (by norm_num [negPrec2Pub])⟩
  · exact (C1_aggregate_guard_only_f1 [negRecallPub]).1
      ⟨negRecallPub, by simp, Or.inr (Or.inr (Or.inr (by norm_num [negRecallPub])))⟩
  · obtain ⟨a, b, d, e, f, g, h1, _, _, _, _, hfneg, _, _, hgpos⟩ :=
      (C1_aggregate_guard_only_f1 [negF1Pub]).2 (by
        intro pub hmem
        simp only [List.mem_singleton] at hmem
        subst hmem
        refine ⟨?_, ?_, ?_, ?_⟩ <;> norm_num [negF1Pub, goodPub])
    refine ⟨a, b, d, e, f, g, h1, hfneg ⟨negF1Pub, by simp, by norm_num [negF1Pub]⟩, ?_⟩
    apply hgpos
    intro pub hmem
    simp only [List.mem_singleton] at hmem
    subst hmem
    norm_num [negF1Pub, goodPub]
